import Mathlib

/-!
Verification development for the VizAI chart application.

The repository is a small TypeScript/React application: a CSV loader
(`utils/parsers.ts`), a Gemini request builder (`services/geminiService.ts`),
a shared type module (`types.ts`), and the main component with the
aggregation heuristic `processData`, the renderer `renderChart` and the
state handlers `handleFileUpload` / `handleGenerate`.

This file shallow-embeds those functions.  Rows are association lists from
column names to loosely typed scalars (numbers modelled as integers),
JavaScript `null`/`undefined` and string objects are modelled explicitly,
asynchronous calls are modelled by passing their outcome as an explicit
argument, and React state updates become pure state transformers.
JavaScript object-key enumeration order for integer-like keys is not
modelled; no claim below depends on the order of aggregated entries.
-/

namespace VizAI

/-- Chart type enumeration, from `types.ts` (`ChartType`). -/
inductive ChartType
  | bar
  | line
  | scatter
  | area
  | pie
  | radar
  | composed
deriving DecidableEq, Repr

/-- The JSON string literal of each chart type, as in `types.ts`. -/
def ChartType.toJs : ChartType → String
  | .bar => "bar"
  | .line => "line"
  | .scatter => "scatter"
  | .area => "area"
  | .pie => "pie"
  | .radar => "radar"
  | .composed => "composed"

/-- A loosely typed scalar cell value as produced by PapaParse with
`dynamicTyping` (numbers modelled as integers, which is all the claims
need). -/
inductive JsonVal
  | str (s : String)
  | num (n : Int)
  | null
deriving DecidableEq, Repr

/-- A data row: a JavaScript object mapping column names to scalar values,
modelled as an association list with unique keys in insertion order. -/
abbrev Row := List (String × JsonVal)

/-- Property access `row[key]`: `none` models JavaScript `undefined`. -/
def Row.get : Row → String → Option JsonVal
  | [], _ => none
  | (k, v) :: rest, key => if k = key then some v else Row.get rest key

/-- JavaScript object-literal key assignment: overwrite the value at an
existing key in place, otherwise append the key. -/
def Row.setKey : Row → String → JsonVal → Row
  | [], k, v => [(k, v)]
  | (k1, v1) :: rest, k, v =>
      if k1 = k then (k1, v) :: rest else (k1, v1) :: Row.setKey rest k v

/-- JavaScript `String(v)` on a possibly-undefined scalar. -/
def jsStringOfVal : Option JsonVal → String
  | some (JsonVal.str s) => s
  | some (JsonVal.num n) => toString n
  | some JsonVal.null => "null"
  | none => "undefined"

/-- `String(row[key])` as used by the aggregation heuristic. -/
def jsStringAt (r : Row) (k : String) : String :=
  jsStringOfVal (Row.get r k)

/-- Truthiness of an optional string: JavaScript treats `undefined`, `null`
and the empty string as falsy. -/
def truthyOptStr : Option String → Bool
  | none => false
  | some s => s != ""

/-- JavaScript `v || d` on an optional string, yielding `d` exactly when
`v` is falsy. -/
def jsOr (v : Option String) (d : String) : String :=
  match v with
  | none => d
  | some s => if s = "" then d else s

/-- Chart configuration, from `types.ts` (`VisualizationConfig`).  Optional
interface fields become `Option`; `yAxisKey` is optional here because the
component code guards it with a falsiness check. -/
structure VisualizationConfig where
  chartType : ChartType
  xAxisKey : String
  yAxisKey : Option String
  seriesKeys : Option (List String)
  groupBy : Option String
  title : String
  description : String
  colors : Option (List String)
  xLabel : Option String
  yLabel : Option String
  rCode : Option String
  pythonCode : Option String
deriving DecidableEq, Repr

/-- A loaded dataset, from `types.ts` (`Dataset`). -/
structure Dataset where
  name : String
  data : List Row
  columns : List String
deriving DecidableEq, Repr

/-- One step of the counting loop in `processData`:
`counts[key] = (counts[key] || 0) + 1` on an association list. -/
def bump : List (String × Nat) → String → List (String × Nat)
  | [], k => [(k, 1)]
  | (k1, n) :: rest, k =>
      if k1 = k then (k1, n + 1) :: rest else (k1, n) :: bump rest k

/-- The `counts` object built by `processData`: occurrence counts of each
key, keyed in first-occurrence order. -/
def groupCounts (keys : List String) : List (String × Nat) :=
  keys.foldl bump []

/-- One aggregated output entry of `processData`:
`({ [config.xAxisKey]: name, [config.yAxisKey || 'value']: value, name })`
built with JavaScript object-literal overwrite semantics. -/
def mkEntry (cfg : VisualizationConfig) (nm : String) (cnt : Nat) : Row :=
  Row.setKey
    (Row.setKey
      (Row.setKey [] cfg.xAxisKey (JsonVal.str nm))
      (jsOr cfg.yAxisKey "value") (JsonVal.num cnt))
    "name" (JsonVal.str nm)

/-- The aggregation branch of `processData`: group rows by the string value
of the x-axis key and emit one count entry per group. -/
def aggregateRows (d : List Row) (cfg : VisualizationConfig) : List Row :=
  (groupCounts (d.map (fun r => jsStringAt r cfg.xAxisKey))).map
    (fun p => mkEntry cfg p.1 p.2)

/-- `processData` from the main component: `null` rows or config yield `[]`;
for pie/bar charts over more than 20 rows with a falsy or literally
`"count"` y-axis key the rows are replaced by per-group counts; otherwise
the rows are returned unchanged. -/
def processData (data : Option (List Row)) (config : Option VisualizationConfig) :
    List Row :=
  match data, config with
  | none, _ => []
  | some _, none => []
  | some d, some cfg =>
    if (cfg.chartType = ChartType.pie ∨ cfg.chartType = ChartType.bar) ∧ d.length > 20 then
      if truthyOptStr cfg.yAxisKey = false ∨ cfg.yAxisKey = some "count" then
        aggregateRows d cfg
      else d
    else d

/-- Reading the count field of an output entry as a number. -/
def countValueAt (r : Row) (k : String) : Int :=
  match Row.get r k with
  | some (JsonVal.num n) => n
  | _ => 0

/-- Sum of the stored counts of the `counts` object. -/
def sumVals (c : List (String × Nat)) : Nat :=
  (c.map Prod.snd).sum

/-- Key-level shadow of `bump`: record a key the first time it is seen. -/
def addKey (l : List String) (k : String) : List String :=
  if k ∈ l then l else l ++ [k]

/-- The fixed 7-color fallback palette `COLORS` of the main component. -/
def COLORS : List String :=
  ["#3b82f6", "#10b981", "#f59e0b", "#ef4444", "#8b5cf6", "#ec4899", "#6366f1"]

/-- `COLORS[i % COLORS.length]`. -/
def fallbackColor (i : Nat) : String :=
  COLORS.getD (i % COLORS.length) ""

/-- `config.colors?.[i] || COLORS[i % COLORS.length]`: optional chaining
yields `undefined` (falsy) on a missing list or index, and an empty string
entry is falsy as well. -/
def seriesColor (colors : Option (List String)) (i : Nat) : String :=
  match colors with
  | none => fallbackColor i
  | some cs =>
    match cs.get? i with
    | some c => if c = "" then fallbackColor i else c
    | none => fallbackColor i

/-- Pie-cell fill:
`config.colors?.[index % (config.colors.length || 1)] || COLORS[index % COLORS.length]`. -/
def pieCellColor (colors : Option (List String)) (i : Nat) : String :=
  match colors with
  | none => fallbackColor i
  | some cs =>
    match cs.get? (i % (if cs.length = 0 then 1 else cs.length)) with
    | some c => if c = "" then fallbackColor i else c
    | none => fallbackColor i

/-- One drawn series primitive (a `<Bar>`, `<Line>` or `<Area>` element):
its `dataKey` attribute and its fill/stroke color. -/
structure SeriesElem where
  dataKey : Option String
  fill : String
deriving DecidableEq, Repr

/-- The series keys used by the renderer:
`config.seriesKeys && config.seriesKeys.length > 0 ? config.seriesKeys : [config.yAxisKey]`. -/
def seriesKeysOf (cfg : VisualizationConfig) : List (Option String) :=
  match cfg.seriesKeys with
  | some l => if l.length > 0 then l.map some else [cfg.yAxisKey]
  | none => [cfg.yAxisKey]

/-- The mapped series elements (`keys.map((key, i) => ...)`). -/
def mkSeriesElems (cfg : VisualizationConfig) : List SeriesElem :=
  (seriesKeysOf cfg).mapIdx (fun i k => ⟨k, seriesColor cfg.colors i⟩)

/-- Abstract description of what `renderChart` renders: the chart-library
primitive chosen by the switch together with the data-dependent attributes
the component passes to it. -/
inductive RenderedChart
  | noViz
  | barChart (bars : List SeriesElem)
  | lineChart (lines : List SeriesElem)
  | scatterChart (xKey : String) (yKey : Option String) (seriesName : String)
  | pieChart (dataKey : String) (nameKey : String) (cellFills : List String)
  | areaChart (areas : List SeriesElem)
  | composedFallback (bars : List SeriesElem)
deriving DecidableEq, Repr

/-- `renderChart` from the main component: a placeholder when no config or
dataset is present, otherwise a switch over the chart type whose `default`
branch renders a composed chart of bars. -/
def renderChart (dataset : Option Dataset) (config : Option VisualizationConfig)
    (chartData : List Row) : RenderedChart :=
  match config, dataset with
  | some cfg, some _ =>
    match cfg.chartType with
    | ChartType.bar => RenderedChart.barChart (mkSeriesElems cfg)
    | ChartType.line => RenderedChart.lineChart (mkSeriesElems cfg)
    | ChartType.scatter =>
        RenderedChart.scatterChart cfg.xAxisKey cfg.yAxisKey cfg.title
    | ChartType.pie =>
        RenderedChart.pieChart (jsOr cfg.yAxisKey "value")
          (if cfg.xAxisKey = "" then "name" else cfg.xAxisKey)
          (chartData.mapIdx (fun i _ => pieCellColor cfg.colors i))
    | ChartType.area => RenderedChart.areaChart (mkSeriesElems cfg)
    | _ => RenderedChart.composedFallback (mkSeriesElems cfg)
  | _, _ => RenderedChart.noViz

/-- The outcome PapaParse delivers to `parseCSV`: either the `complete`
callback with parsed rows and optional header fields, or the `error`
callback. -/
inductive PapaOutcome
  | completed (data : List Row) (fields : Option (List String))
  | failed (err : String)
deriving DecidableEq, Repr

/-- The resolved value of a successful `parseCSV` promise. -/
structure ParsedCSV where
  data : List Row
  columns : List String
deriving DecidableEq, Repr

/-- `parseCSV` from `utils/parsers.ts`: resolves with data and columns when
the parser reports header fields, rejects otherwise. -/
def parseCSV : PapaOutcome → Except String ParsedCSV
  | PapaOutcome.failed e => Except.error e
  | PapaOutcome.completed dta fields =>
    match fields with
    | some fs => Except.ok ⟨dta, fs⟩
    | none => Except.error "Could not parse columns from CSV"

/-- The uploaded file, as far as the handler reads it. -/
structure FileInfo where
  name : String
deriving DecidableEq, Repr

/-- The component state: the five `useState` cells the claims talk about
plus the active output tab. -/
structure AppState where
  dataset : Option Dataset
  config : Option VisualizationConfig
  loading : Bool
  prompt : String
  imagePreview : Option String
  activeTab : String
deriving DecidableEq, Repr

/-- `handleFileUpload`: no file selected is a no-op; a successful parse
replaces the dataset and resets the config to `null`; a rejected parse
alerts and leaves the state untouched.  The boolean is whether an alert
was shown. -/
def handleFileUpload (s : AppState) (file : Option FileInfo) (papa : PapaOutcome) :
    AppState × Bool :=
  match file with
  | none => (s, false)
  | some f =>
    match parseCSV papa with
    | Except.ok res =>
        ({ s with dataset := some ⟨f.name, res.data, res.columns⟩, config := none }, false)
    | Except.error _ => (s, true)

/-- The process environment as read by `getAiClient`. -/
structure Env where
  apiKey : Option String
deriving DecidableEq, Repr

/-- The error message thrown by `getAiClient` on a missing key. -/
def keyErrMsg : String := "API Key not found in environment variables"

/-- `getAiClient` from `services/geminiService.ts`: throws when
`process.env.API_KEY` is falsy, otherwise yields a client. -/
def getAiClient (env : Env) : Except String Unit :=
  match env.apiKey with
  | none => Except.error keyErrMsg
  | some k => if k = "" then Except.error keyErrMsg else Except.ok ()

/-- JavaScript `s.split(',')` (splitting on a single comma, keeping empty
segments, `[""]` on the empty string). -/
def splitCommaAux : List Char → List Char → List String
  | [], acc => [String.mk acc.reverse]
  | c :: rest, acc =>
      if c = ',' then String.mk acc.reverse :: splitCommaAux rest []
      else splitCommaAux rest (c :: acc)

/-- JavaScript `s.split(',')` on a string. -/
def jsSplitComma (s : String) : List String :=
  splitCommaAux s.data []

/-- `imageDataBase64.split(',')[1] || imageDataBase64` from
`analyzeImageAndData`. -/
def cleanBase64 (s : String) : String :=
  match (jsSplitComma s).get? 1 with
  | some seg => if seg = "" then s else seg
  | none => s

/-- Modelled from the spec words of claim C8 (for comparison with the code):
the substring after the first comma when the string contains a comma,
otherwise the string unchanged. -/
def afterFirstComma (s : String) : String :=
  match jsSplitComma s with
  | [] => s
  | [_] => s
  | _ :: rest => String.intercalate "," rest

/-- JSON rendering of a scalar (string escaping inside values is not
modelled; no claim depends on it). -/
def jsonOfVal : JsonVal → String
  | JsonVal.str s => "\"" ++ s ++ "\""
  | JsonVal.num n => toString n
  | JsonVal.null => "null"

/-- JSON rendering of a row object. -/
def jsonOfRow (r : Row) : String :=
  "\x7b" ++ String.intercalate ","
    (r.map (fun p => "\"" ++ p.1 ++ "\":" ++ jsonOfVal p.2)) ++ "\x7d"

/-- JSON rendering of an array of rows. -/
def jsonOfRows (rs : List Row) : String :=
  "[" ++ String.intercalate "," (rs.map jsonOfRow) ++ "]"

/-- JSON rendering of an array of strings. -/
def jsonOfStrings (l : List String) : String :=
  "[" ++ String.intercalate "," (l.map (fun s => "\"" ++ s ++ "\"")) ++ "]"

/-- Optional-field rendering helper for `serializeConfig`. -/
def jsonOptField (label : String) : Option String → String
  | none => ""
  | some v => ",\"" ++ label ++ "\":\"" ++ v ++ "\""

/-- Optional string-array field rendering helper for `serializeConfig`. -/
def jsonOptListField (label : String) : Option (List String) → String
  | none => ""
  | some l => ",\"" ++ label ++ "\":" ++ jsonOfStrings l

/-- `JSON.stringify(currentConfig)` as used by `refineConfig` (field order
fixed to the schema declaration order; `undefined` fields are omitted). -/
def serializeConfig (cfg : VisualizationConfig) : String :=
  "\x7b\"chartType\":\"" ++ cfg.chartType.toJs ++
  "\",\"xAxisKey\":\"" ++ cfg.xAxisKey ++ "\"" ++
  jsonOptField "yAxisKey" cfg.yAxisKey ++
  jsonOptListField "seriesKeys" cfg.seriesKeys ++
  jsonOptField "groupBy" cfg.groupBy ++
  ",\"title\":\"" ++ cfg.title ++
  "\",\"description\":\"" ++ cfg.description ++ "\"" ++
  jsonOptListField "colors" cfg.colors ++
  jsonOptField "xLabel" cfg.xLabel ++
  jsonOptField "yLabel" cfg.yLabel ++
  jsonOptField "rCode" cfg.rCode ++
  jsonOptField "pythonCode" cfg.pythonCode ++
  "\x7d"

/-- The full-generation prompt of `analyzeImageAndData`: task text followed
by the user prompt, the column list, and the first three rows of the data
sample (`dataSample.slice(0, 3)`). -/
def analyzePrompt (userPrompt : String) (columns : List String)
    (dataSample : List Row) : String :=
  "\n    You are an expert Data Visualization Engineer. \n    \n    Task:\n" ++
  "    1. Analyze the provided dataset structure (columns and sample data).\n" ++
  "    2. If an image is provided, analyze the chart style, type, and aesthetics (color, layout) from the image.\n" ++
  "    3. Generate a configuration to recreate a similar visualization using the provided dataset.\n" ++
  "    4. If no image is provided, suggest the best chart type based on the data and user prompt.\n" ++
  "    5. Also generate R (ggplot2) and Python (matplotlib/seaborn) code snippets to reproduce this chart.\n\n" ++
  "    User Prompt: " ++ userPrompt ++
  "\n    Data Columns: " ++ jsonOfStrings columns ++
  "\n    Data Sample (First 3 rows): " ++ jsonOfRows (dataSample.take 3) ++
  "\n  "

/-- The refinement prompt of `refineConfig`: the serialized current config
followed by the quoted user request and the update instructions. -/
def refinePrompt (cfg : VisualizationConfig) (userPrompt : String) : String :=
  "\n    Current Configuration: " ++ serializeConfig cfg ++
  "\n    User Update Request: \"" ++ userPrompt ++ "\"\n\n" ++
  "    Update the visualization configuration based on the user request. \n" ++
  "    You can change the chart type, axis keys, titles, or colors.\n" ++
  "    Regenerate the R and Python code to reflect these changes.\n  "

/-- One part of a generation request: inline text or inline image bytes. -/
inductive RequestPart
  | text (s : String)
  | inlineData (mimeType : String) (data : String)
deriving DecidableEq, Repr

/-- The request handed to `ai.models.generateContent`. -/
structure GenRequest where
  model : String
  parts : List RequestPart
deriving DecidableEq, Repr

/-- The image parts appended by `analyzeImageAndData`: nothing when the
image argument is falsy, otherwise one inline-data part with the cleaned
base64 payload. -/
def imageParts (img : Option String) : List RequestPart :=
  match img with
  | none => []
  | some s =>
      if s = "" then []
      else [RequestPart.inlineData "image/png" (cleanBase64 s)]

/-- The request built by `analyzeImageAndData` before it is sent. -/
def buildAnalyzeRequest (img : Option String) (dataSample : List Row)
    (columns : List String) (userPrompt : String) : GenRequest :=
  ⟨"gemini-2.5-flash",
   RequestPart.text (analyzePrompt userPrompt columns dataSample) :: imageParts img⟩

/-- The request built by `refineConfig` before it is sent: a single text
part, no image. -/
def buildRefineRequest (cfg : VisualizationConfig) (userPrompt : String) : GenRequest :=
  ⟨"gemini-2.5-flash", [RequestPart.text (refinePrompt cfg userPrompt)]⟩

/-- `analyzeImageAndData` up to the network boundary: the client check
happens first, and the successful value is the request that would be
transmitted. -/
def analyzeImageAndData (env : Env) (img : Option String) (dataSample : List Row)
    (columns : List String) (userPrompt : String) : Except String GenRequest :=
  match getAiClient env with
  | Except.error e => Except.error e
  | Except.ok _ => Except.ok (buildAnalyzeRequest img dataSample columns userPrompt)

/-- `refineConfig` up to the network boundary. -/
def refineConfig (env : Env) (cfg : VisualizationConfig) (userPrompt : String) :
    Except String GenRequest :=
  match getAiClient env with
  | Except.error e => Except.error e
  | Except.ok _ => Except.ok (buildRefineRequest cfg userPrompt)

/-- The data payload of the first inline-data part of a request, if any. -/
def imageDataOf (req : GenRequest) : Option String :=
  (req.parts.filterMap (fun p =>
    match p with
    | RequestPart.inlineData _ dta => some dta
    | _ => none)).head?

/-- Which AI operation `handleGenerate` invokes, with the request it
builds. -/
inductive AICall
  | refineCall (req : GenRequest)
  | analyzeCall (req : GenRequest)
deriving DecidableEq, Repr

/-- The dispatch inside `handleGenerate`:
`if (config && prompt && !imagePreview)` refine, else full generation with
`prompt || "Visualize this data effectively"`. -/
def generateCall (s : AppState) (ds : Dataset) : AICall :=
  match s.config with
  | some cfg =>
    if s.prompt != "" && !(truthyOptStr s.imagePreview) then
      AICall.refineCall (buildRefineRequest cfg s.prompt)
    else
      AICall.analyzeCall (buildAnalyzeRequest s.imagePreview ds.data ds.columns
        (if s.prompt = "" then "Visualize this data effectively" else s.prompt))
  | none =>
      AICall.analyzeCall (buildAnalyzeRequest s.imagePreview ds.data ds.columns
        (if s.prompt = "" then "Visualize this data effectively" else s.prompt))

/-- The observable outcome of one run of `handleGenerate`: the state after
the handler (including the `finally` clause), whether an alert was shown,
and which AI call was issued (if any). -/
structure GenerateResult where
  state : AppState
  alerted : Bool
  call : Option AICall
deriving DecidableEq, Repr

/-- `handleGenerate`: a no-op without a dataset; otherwise the chosen AI
call is awaited (its outcome passed here explicitly), a success stores the
new config, a failure alerts, and `finally` clears the loading flag. -/
def handleGenerate (s : AppState) (outcome : Except String VisualizationConfig) :
    GenerateResult :=
  match s.dataset with
  | none => ⟨s, false, none⟩
  | some ds =>
    match outcome with
    | Except.ok newCfg =>
        ⟨{ s with config := some newCfg, loading := false }, false,
         some (generateCall s ds)⟩
    | Except.error _ =>
        ⟨{ s with loading := false }, true, some (generateCall s ds)⟩

/-- The `disabled={loading || !dataset}` attribute of the generate
button. -/
def generateDisabled (s : AppState) : Bool :=
  s.loading || s.dataset.isNone

/-- Clicking the generate button: a disabled button fires no handler, an
enabled one runs `handleGenerate`. -/
def clickGenerate (s : AppState) (outcome : Except String VisualizationConfig) :
    GenerateResult :=
  if generateDisabled s then ⟨s, false, none⟩ else handleGenerate s outcome

/-- The mount effect: `loadExampleTitanic` is parsed and, on success, the
dataset is installed under the fixed name; the environment is never read
here (the unused parameter mirrors that). -/
def appInit (_env : Env) (titanicOutcome : PapaOutcome) : Option Dataset :=
  match parseCSV titanicOutcome with
  | Except.ok res => some ⟨"Titanic Dataset", res.data, res.columns⟩
  | Except.error _ => none

/-- Concrete inputs used to instantiate the theorems below. -/
def exRowA : Row := [("Category", JsonVal.str "A")]

def exRowB : Row := [("Category", JsonVal.str "B")]

def exRowC : Row := [("Category", JsonVal.str "C")]

def exRows25 : List Row :=
  List.replicate 10 exRowA ++ List.replicate 10 exRowB ++ List.replicate 5 exRowC

def exCfgBar : VisualizationConfig :=
  { chartType := ChartType.bar, xAxisKey := "Category", yAxisKey := none,
    seriesKeys := none, groupBy := none, title := "Counts",
    description := "Category counts", colors := none, xLabel := none,
    yLabel := none, rCode := none, pythonCode := none }

def exCfgRadar : VisualizationConfig :=
  { chartType := ChartType.radar, xAxisKey := "Age", yAxisKey := some "Fare",
    seriesKeys := some ["Fare", "Age"], groupBy := none, title := "Radar",
    description := "Radar demo", colors := none, xLabel := none,
    yLabel := none, rCode := none, pythonCode := none }

def exDataset : Dataset :=
  { name := "titanic.csv", data := exRows25, columns := ["Category"] }

def exState : AppState :=
  { dataset := some exDataset, config := some exCfgBar, loading := false,
    prompt := "make it a pie chart", imagePreview := none, activeTab := "chart" }

/-! ## Helper lemmas -/

theorem sumVals_bump (c : List (String × Nat)) (k : String) :
    sumVals (bump c k) = sumVals c + 1 := by
  induction c with
  | nil => simp [bump, sumVals]
  | cons hd tl ih =>
    obtain ⟨k1, n⟩ := hd
    by_cases h : k1 = k
    · simp [bump, h, sumVals]
      omega
    · simp only [bump, if_neg h]
      simp only [sumVals, List.map_cons, List.sum_cons] at ih ⊢
      omega

theorem sumVals_foldl_bump (ks : List String) (c : List (String × Nat)) :
    sumVals (ks.foldl bump c) = sumVals c + ks.length := by
  induction ks generalizing c with
  | nil => simp
  | cons k t ih =>
    simp only [List.foldl_cons, List.length_cons]
    rw [ih, sumVals_bump]
    omega

theorem keys_bump (c : List (String × Nat)) (k : String) :
    (bump c k).map Prod.fst = addKey (c.map Prod.fst) k := by
  induction c with
  | nil => simp [bump, addKey]
  | cons hd tl ih =>
    obtain ⟨k1, n⟩ := hd
    by_cases h : k1 = k
    · subst h
      simp [bump, addKey]
    · simp only [bump, if_neg h, List.map_cons, ih, addKey, List.mem_cons]
      by_cases hm : k ∈ tl.map Prod.fst
      · simp [hm, Ne.symm h]
      · simp [hm, Ne.symm h]

theorem keys_foldl_bump (ks : List String) (c : List (String × Nat)) :
    (ks.foldl bump c).map Prod.fst = ks.foldl addKey (c.map Prod.fst) := by
  induction ks generalizing c with
  | nil => rfl
  | cons k t ih =>
    simp only [List.foldl_cons]
    rw [ih, keys_bump]

theorem nodup_foldl_addKey (ks : List String) (l : List String) (h : l.Nodup) :
    (ks.foldl addKey l).Nodup := by
  induction ks generalizing l with
  | nil => exact h
  | cons k t ih =>
    simp only [List.foldl_cons]
    apply ih
    unfold addKey
    by_cases hm : k ∈ l
    · simpa [hm]
    · simp [hm, List.nodup_append, h]

theorem toFinset_foldl_addKey (ks : List String) (l : List String) :
    (ks.foldl addKey l).toFinset = l.toFinset ∪ ks.toFinset := by
  induction ks generalizing l with
  | nil => simp
  | cons k t ih =>
    simp only [List.foldl_cons]
    rw [ih]
    unfold addKey
    by_cases hm : k ∈ l
    · rw [if_pos hm, List.toFinset_cons, Finset.union_insert,
        Finset.insert_eq_self.mpr]
      exact Finset.mem_union_left _ (List.mem_toFinset.mpr hm)
    · rw [if_neg hm]
      ext x
      simp only [List.toFinset_append, List.toFinset_cons, List.toFinset_nil,
        Finset.mem_union, Finset.mem_insert, List.mem_toFinset,
        Finset.not_mem_empty, insert_emptyc_eq, Finset.mem_singleton]
      tauto

theorem groupCounts_length (ks : List String) :
    (groupCounts ks).length = ks.dedup.length := by
  have h1 : (groupCounts ks).length = ((groupCounts ks).map Prod.fst).length :=
    (List.length_map _ _).symm
  rw [h1, groupCounts, keys_foldl_bump]
  have hn : (ks.foldl addKey ([] : List String)).Nodup :=
    nodup_foldl_addKey ks [] (by simp)
  have ht : (ks.foldl addKey ([] : List String)).toFinset = ks.toFinset := by
    rw [toFinset_foldl_addKey]; simp
  have hc := List.toFinset_card_of_nodup hn
  rw [ht] at hc
  rw [List.map_nil, ← hc, List.card_toFinset]

theorem get_setKey_self (r : Row) (k : String) (v : JsonVal) :
    Row.get (Row.setKey r k v) k = some v := by
  induction r with
  | nil => simp [Row.setKey, Row.get]
  | cons hd tl ih =>
    obtain ⟨k1, v1⟩ := hd
    by_cases h : k1 = k <;> simp [Row.setKey, Row.get, h, ih]

theorem get_setKey_ne (r : Row) (k : String) (v : JsonVal) (k2 : String)
    (h : k ≠ k2) :
    Row.get (Row.setKey r k v) k2 = Row.get r k2 := by
  induction r with
  | nil => simp [Row.setKey, Row.get, h]
  | cons hd tl ih =>
    obtain ⟨k1, v1⟩ := hd
    by_cases h1 : k1 = k
    · subst h1
      simp [Row.setKey, Row.get, h]
    · simp [Row.setKey, Row.get, h1, ih]

theorem countKey_ne_name (y : Option String)
    (hy : truthyOptStr y = false ∨ y = some "count") :
    jsOr y "value" ≠ "name" := by
  rcases hy with h | h
  · cases y with
    | none => simp [jsOr]
    | some s =>
      simp only [truthyOptStr, bne_eq_false_iff_eq] at h
      simp [jsOr, h]
  · rw [h]
    simp [jsOr]

theorem countValueAt_mkEntry (cfg : VisualizationConfig) (nm : String) (cnt : Nat)
    (h : jsOr cfg.yAxisKey "value" ≠ "name") :
    countValueAt (mkEntry cfg nm cnt) (jsOr cfg.yAxisKey "value") = (cnt : Int) := by
  unfold countValueAt mkEntry
  rw [get_setKey_ne _ _ _ _ (fun he => h he.symm), get_setKey_self]

theorem sum_map_counts (l : List (String × Nat)) (f : String × Nat → Int)
    (hf : ∀ p ∈ l, f p = (p.2 : Int)) :
    (l.map f).sum = (sumVals l : Int) := by
  induction l with
  | nil => simp [sumVals]
  | cons hd tl ih =>
    rw [List.map_cons, List.sum_cons, hf hd (List.mem_cons_self _ _),
      ih (fun p hp => hf p (List.mem_cons_of_mem _ hp))]
    simp only [sumVals, List.map_cons, List.sum_cons]
    push_cast
    ring

/-! ## Claim theorems -/

/-- Claim C1: for non-null rows and config, `processData` replaces the rows
with per-group counts exactly when the chart type is pie or bar, the rows
number more than 20, and the y-axis key is falsy or the literal `"count"`;
then the output has one entry per distinct string value of the x-axis key
and the counts sum to the original row count.  In every other case the
input rows are returned unchanged. -/
theorem processData_aggregation_spec (d : List Row) (cfg : VisualizationConfig) :
    (((cfg.chartType = ChartType.pie ∨ cfg.chartType = ChartType.bar) ∧
        d.length > 20 ∧
        (truthyOptStr cfg.yAxisKey = false ∨ cfg.yAxisKey = some "count")) →
      (processData (some d) (some cfg)).length =
          (d.map (fun r => jsStringAt r cfg.xAxisKey)).dedup.length ∧
      ((processData (some d) (some cfg)).map
          (fun r => countValueAt r (jsOr cfg.yAxisKey "value"))).sum = (d.length : Int))
    ∧ (¬ ((cfg.chartType = ChartType.pie ∨ cfg.chartType = ChartType.bar) ∧
        d.length > 20 ∧
        (truthyOptStr cfg.yAxisKey = false ∨ cfg.yAxisKey = some "count")) →
      processData (some d) (some cfg) = d) := by
  constructor
  · rintro ⟨hty, hlen, hy⟩
    have hproc : processData (some d) (some cfg) = aggregateRows d cfg := by
      simp only [processData]
      rw [if_pos ⟨hty, hlen⟩, if_pos hy]
    rw [hproc]
    constructor
    · unfold aggregateRows
      rw [List.length_map, groupCounts_length]
    · unfold aggregateRows
      rw [List.map_map]
      simp only [Function.comp_def]
      rw [sum_map_counts _ _
        (fun p _ => countValueAt_mkEntry cfg p.1 p.2 (countKey_ne_name _ hy))]
      rw [groupCounts]
      have h2 := sumVals_foldl_bump (d.map fun r => jsStringAt r cfg.xAxisKey) []
      simp only [sumVals, List.map_nil, List.sum_nil, Nat.zero_add,
        List.length_map] at h2
      rw [show sumVals ((d.map fun r => jsStringAt r cfg.xAxisKey).foldl bump []) =
        d.length from h2]
  · intro hneg
    simp only [processData]
    by_cases h1 : (cfg.chartType = ChartType.pie ∨ cfg.chartType = ChartType.bar) ∧
        d.length > 20
    · have h2 : ¬ (truthyOptStr cfg.yAxisKey = false ∨ cfg.yAxisKey = some "count") := by
        intro h2
        exact hneg ⟨h1.1, h1.2, h2⟩
      rw [if_pos h1, if_neg h2]
    · rw [if_neg h1]

/-- Claim C1 witness: 25 rows with three distinct `Category` values and a
bar chart with no y-axis key aggregate to one entry per distinct value,
the counts summing to 25. -/
theorem processData_aggregation_spec_witness :
    (((exCfgBar.chartType = ChartType.pie ∨ exCfgBar.chartType = ChartType.bar) ∧
        exRows25.length > 20 ∧
        (truthyOptStr exCfgBar.yAxisKey = false ∨ exCfgBar.yAxisKey = some "count")) ∧
      ((processData (some exRows25) (some exCfgBar)).length =
          (exRows25.map (fun r => jsStringAt r exCfgBar.xAxisKey)).dedup.length ∧
        ((processData (some exRows25) (some exCfgBar)).map
          (fun r => countValueAt r (jsOr exCfgBar.yAxisKey "value"))).sum =
            (exRows25.length : Int))) :=
  ⟨by decide, (processData_aggregation_spec exRows25 exCfgBar).1 (by decide)⟩

/-- Claim C2: a chart type outside the explicit switch cases renders the
composed-chart fallback with one bar per series key, without crashing. -/
theorem renderChart_fallback_spec (ds : Dataset) (cfg : VisualizationConfig)
    (cd : List Row)
    (h : cfg.chartType ∉ [ChartType.bar, ChartType.line, ChartType.scatter,
      ChartType.pie, ChartType.area]) :
    renderChart (some ds) (some cfg) cd =
      RenderedChart.composedFallback (mkSeriesElems cfg) ∧
    (mkSeriesElems cfg).length = (seriesKeysOf cfg).length := by
  constructor
  · cases hct : cfg.chartType <;> simp_all [renderChart]
  · simp [mkSeriesElems]

/-- Claim C2 witness: a radar-type config renders the composed fallback with
one bar per series key. -/
theorem renderChart_fallback_spec_witness :
    (exCfgRadar.chartType ∉ [ChartType.bar, ChartType.line, ChartType.scatter,
      ChartType.pie, ChartType.area]) ∧
    (renderChart (some exDataset) (some exCfgRadar) [] =
      RenderedChart.composedFallback (mkSeriesElems exCfgRadar) ∧
    (mkSeriesElems exCfgRadar).length = (seriesKeysOf exCfgRadar).length) :=
  ⟨by decide, renderChart_fallback_spec exDataset exCfgRadar [] (by decide)⟩

/-- Claim C3: when the AI call fails, `handleGenerate` leaves the prior
config and dataset untouched, shows an alert, and clears the loading
flag. -/
theorem handleGenerate_failure_spec (s : AppState) (e : String)
    (h : s.dataset.isSome = true) :
    (handleGenerate s (Except.error e)).alerted = true ∧
    (handleGenerate s (Except.error e)).state.loading = false ∧
    (handleGenerate s (Except.error e)).state.config = s.config ∧
    (handleGenerate s (Except.error e)).state.dataset = s.dataset := by
  obtain ⟨ds, hds⟩ := Option.isSome_iff_exists.mp h
  simp [handleGenerate, hds]

/-- Claim C3 witness: a failing call on the example state alerts, clears
loading, and keeps config and dataset. -/
theorem handleGenerate_failure_spec_witness :
    exState.dataset.isSome = true ∧
    ((handleGenerate exState (Except.error "network")).alerted = true ∧
    (handleGenerate exState (Except.error "network")).state.loading = false ∧
    (handleGenerate exState (Except.error "network")).state.config = exState.config ∧
    (handleGenerate exState (Except.error "network")).state.dataset = exState.dataset) :=
  ⟨by decide, handleGenerate_failure_spec exState "network" (by decide)⟩

/-- Claim C4: with the loading flag set, the generate control is disabled,
so a click issues no AI call, shows no alert, and changes no state. -/
theorem clickGenerate_loading_spec (s : AppState)
    (o : Except String VisualizationConfig) (h : s.loading = true) :
    clickGenerate s o = ⟨s, false, none⟩ := by
  simp [clickGenerate, generateDisabled, h]

/-- Claim C4 witness: clicking while loading leaves the state as is and
issues no call. -/
theorem clickGenerate_loading_spec_witness :
    ({ exState with loading := true } : AppState).loading = true ∧
    clickGenerate { exState with loading := true } (Except.error "x") =
      ⟨{ exState with loading := true }, false, none⟩ :=
  ⟨by decide,
   clickGenerate_loading_spec { exState with loading := true }
     (Except.error "x") (by decide)⟩

/-- Claim C5: a successful CSV upload installs the parsed dataset under the
file name and resets the config to `null`. -/
theorem handleFileUpload_success_spec (s : AppState) (f : FileInfo)
    (papa : PapaOutcome) (res : ParsedCSV) (h : parseCSV papa = Except.ok res) :
    handleFileUpload s (some f) papa =
      ({ s with dataset := some ⟨f.name, res.data, res.columns⟩,
                config := none }, false) := by
  simp [handleFileUpload, h]

/-- Claim C5 witness: uploading a one-row CSV over a state that already has
a config replaces the dataset and clears the config. -/
theorem handleFileUpload_success_spec_witness :
    parseCSV (PapaOutcome.completed [exRowA] (some ["Category"])) =
      Except.ok ⟨[exRowA], ["Category"]⟩ ∧
    handleFileUpload exState (some ⟨"new.csv"⟩)
        (PapaOutcome.completed [exRowA] (some ["Category"])) =
      ({ exState with dataset := some ⟨"new.csv", [exRowA], ["Category"]⟩,
                      config := none }, false) :=
  ⟨rfl,
   handleFileUpload_success_spec exState ⟨"new.csv"⟩
     (PapaOutcome.completed [exRowA] (some ["Category"]))
     ⟨[exRowA], ["Category"]⟩ rfl⟩

/-- Claim C6: a failed CSV parse alerts and leaves the whole state, in
particular the prior dataset and config, unchanged. -/
theorem handleFileUpload_failure_spec (s : AppState) (f : FileInfo)
    (papa : PapaOutcome) (e : String) (h : parseCSV papa = Except.error e) :
    handleFileUpload s (some f) papa = (s, true) := by
  simp [handleFileUpload, h]

/-- Claim C6 witness: a parse outcome without header fields rejects, the
handler alerts and keeps the state. -/
theorem handleFileUpload_failure_spec_witness :
    parseCSV (PapaOutcome.completed [] none) =
      Except.error "Could not parse columns from CSV" ∧
    handleFileUpload exState (some ⟨"bad.csv"⟩) (PapaOutcome.completed [] none) =
      (exState, true) :=
  ⟨rfl,
   handleFileUpload_failure_spec exState ⟨"bad.csv"⟩
     (PapaOutcome.completed [] none) "Could not parse columns from CSV"
     rfl⟩

/-- Claim C7: generation with an existing config, a non-empty instruction
and no image dispatches to refinement, whose request is a single text part
embedding the serialized current config and carrying no image; in every
other case the full-generation operation is dispatched. -/
theorem generate_dispatch_spec (s : AppState) (ds : Dataset)
    (o : Except String VisualizationConfig) (hds : s.dataset = some ds) :
    (∀ cfg, s.config = some cfg → s.prompt ≠ "" →
      truthyOptStr s.imagePreview = false →
      (handleGenerate s o).call =
          some (AICall.refineCall (buildRefineRequest cfg s.prompt)) ∧
      (buildRefineRequest cfg s.prompt).parts =
          [RequestPart.text (refinePrompt cfg s.prompt)] ∧
      (∃ pre post, refinePrompt cfg s.prompt =
          pre ++ (serializeConfig cfg ++ post)))
    ∧ ((s.config = none ∨ s.prompt = "" ∨ truthyOptStr s.imagePreview = true) →
      (handleGenerate s o).call =
          some (AICall.analyzeCall (buildAnalyzeRequest s.imagePreview ds.data
            ds.columns
            (if s.prompt = "" then "Visualize this data effectively"
             else s.prompt)))) := by
  have hcall : (handleGenerate s o).call = some (generateCall s ds) := by
    cases o <;> simp [handleGenerate, hds]
  constructor
  · intro cfg hcfg hp himg
    refine ⟨?_, rfl, ?_⟩
    · rw [hcall]
      simp only [generateCall, hcfg]
      rw [if_pos]
      simp [hp, himg]
    · exact ⟨"\n    Current Configuration: ",
        "\n    User Update Request: \"" ++ s.prompt ++ "\"\n\n" ++
        "    Update the visualization configuration based on the user request. \n" ++
        "    You can change the chart type, axis keys, titles, or colors.\n" ++
        "    Regenerate the R and Python code to reflect these changes.\n  ",
        by simp [refinePrompt, String.append_assoc]⟩
  · intro hother
    rw [hcall]
    rcases hother with hc | hp | himg
    · simp [generateCall, hc]
    · cases hcfg : s.config with
      | none => simp [generateCall, hcfg]
      | some cfg => simp [generateCall, hcfg, hp]
    · cases hcfg : s.config with
      | none => simp [generateCall, hcfg]
      | some cfg => simp [generateCall, hcfg, himg]

/-- Claim C7 witness: the example state (config present, non-empty prompt,
no image) dispatches to refinement with the serialized config embedded and
a single text part. -/
theorem generate_dispatch_spec_witness :
    exState.dataset = some exDataset ∧
    exState.config = some exCfgBar ∧
    exState.prompt ≠ "" ∧
    truthyOptStr exState.imagePreview = false ∧
    ((handleGenerate exState (Except.error "x")).call =
        some (AICall.refineCall (buildRefineRequest exCfgBar exState.prompt)) ∧
      (buildRefineRequest exCfgBar exState.prompt).parts =
        [RequestPart.text (refinePrompt exCfgBar exState.prompt)] ∧
      (∃ pre post, refinePrompt exCfgBar exState.prompt =
        pre ++ (serializeConfig exCfgBar ++ post))) :=
  ⟨by decide, by decide, by decide, by decide,
   (generate_dispatch_spec exState exDataset (Except.error "x") (by decide)).1
     exCfgBar (by decide) (by decide) (by decide)⟩

/-- Claim C8 counterexample: for the two-comma image string `"a,b,c"` the
code transmits the segment between the first two commas (`"b"`), not the
substring after the first comma (`"b,c"`) that the claim demands. -/
theorem cleanBase64_counterexample :
    imageDataOf (buildAnalyzeRequest (some "a,b,c") [] [] "p") ≠
      some (afterFirstComma "a,b,c") := by
  decide

/-- Claim C8 (amended): for a non-null, non-empty image string the
transmitted payload is the segment between the first and second commas
when such a segment exists and is non-empty, and the string unchanged
otherwise; a null (or empty, hence falsy) image adds no image part. -/
theorem analyze_image_payload_spec (s : String) (d : List Row)
    (c : List String) (p : String) :
    (∀ seg, (jsSplitComma s).get? 1 = some seg → seg ≠ "" → s ≠ "" →
      imageDataOf (buildAnalyzeRequest (some s) d c p) = some seg)
    ∧ (∀ seg, (jsSplitComma s).get? 1 = some seg → seg = "" → s ≠ "" →
      imageDataOf (buildAnalyzeRequest (some s) d c p) = some s)
    ∧ ((jsSplitComma s).get? 1 = none → s ≠ "" →
      imageDataOf (buildAnalyzeRequest (some s) d c p) = some s)
    ∧ imageDataOf (buildAnalyzeRequest none d c p) = none
    ∧ imageDataOf (buildAnalyzeRequest (some "") d c p) = none := by
  refine ⟨?_, ?_, ?_, by simp [buildAnalyzeRequest, imageParts, imageDataOf],
    by simp [buildAnalyzeRequest, imageParts, imageDataOf]⟩
  · intro seg hseg hne hs
    rw [List.get?_eq_getElem?] at hseg
    simp [buildAnalyzeRequest, imageParts, imageDataOf, hs, cleanBase64, hseg, hne]
  · intro seg hseg hemp hs
    rw [List.get?_eq_getElem?] at hseg
    simp [buildAnalyzeRequest, imageParts, imageDataOf, hs, cleanBase64, hseg, hemp]
  · intro hseg hs
    rw [List.get?_eq_getElem?] at hseg
    simp [buildAnalyzeRequest, imageParts, imageDataOf, hs, cleanBase64, hseg]

/-- Claim C8 witness: a data-URL prefix with a single comma is stripped to
the part after it. -/
theorem analyze_image_payload_spec_witness :
    (jsSplitComma "data:image/png;base64,QUJD").get? 1 = some "QUJD" ∧
    ("QUJD" : String) ≠ "" ∧
    ("data:image/png;base64,QUJD" : String) ≠ "" ∧
    imageDataOf (buildAnalyzeRequest (some "data:image/png;base64,QUJD") [] [] "p") =
      some "QUJD" :=
  ⟨by decide, by decide, by decide,
   (analyze_image_payload_spec "data:image/png;base64,QUJD" [] [] "p").1
     "QUJD" (by decide) (by decide) (by decide)⟩

/-- Claim C9: with the API key absent both AI operations fail at call time
with the key error, before any request is built, while application startup
(the example-dataset load) neither reads the key nor fails. -/
theorem missing_key_spec (env : Env) (h : env.apiKey = none) :
    (∀ img d cols p, analyzeImageAndData env img d cols p = Except.error keyErrMsg)
    ∧ (∀ cfg p, refineConfig env cfg p = Except.error keyErrMsg)
    ∧ (∀ outc res, parseCSV outc = Except.ok res →
        appInit env outc = some ⟨"Titanic Dataset", res.data, res.columns⟩) := by
  refine ⟨?_, ?_, ?_⟩
  · intro img d cols p
    simp [analyzeImageAndData, getAiClient, h]
  · intro cfg p
    simp [refineConfig, getAiClient, h]
  · intro outc res hres
    simp [appInit, hres]

/-- Claim C9 witness: with no key the analyze call fails with the key error
and startup still installs the example dataset. -/
theorem missing_key_spec_witness :
    (⟨none⟩ : Env).apiKey = none ∧
    (analyzeImageAndData ⟨none⟩ none [exRowA] ["Category"] "p" =
        Except.error keyErrMsg ∧
      refineConfig ⟨none⟩ exCfgBar "p" = Except.error keyErrMsg ∧
      appInit ⟨none⟩ (PapaOutcome.completed [exRowA] (some ["Category"])) =
        some ⟨"Titanic Dataset", [exRowA], ["Category"]⟩) :=
  ⟨rfl,
   (missing_key_spec ⟨none⟩ rfl).1 none [exRowA] ["Category"] "p",
   (missing_key_spec ⟨none⟩ rfl).2.1 exCfgBar "p",
   (missing_key_spec ⟨none⟩ rfl).2.2
     (PapaOutcome.completed [exRowA] (some ["Category"]))
     ⟨[exRowA], ["Category"]⟩ rfl⟩

/-- Claim C10: the full-generation prompt embeds only the first three data
rows, so two data arrays agreeing on their first three elements produce
identical requests. -/
theorem analyze_sample_bound_spec (env : Env) (img : Option String)
    (d1 d2 : List Row) (cols : List String) (p : String)
    (h : d1.take 3 = d2.take 3) :
    analyzeImageAndData env img d1 cols p = analyzeImageAndData env img d2 cols p := by
  simp [analyzeImageAndData, buildAnalyzeRequest, analyzePrompt, h]

/-- Claim C10 witness: two four-row samples differing only in the fourth row
yield the same request. -/
theorem analyze_sample_bound_spec_witness :
    ([exRowA, exRowB, exRowC, exRowA].take 3 =
      [exRowA, exRowB, exRowC, exRowB].take 3) ∧
    analyzeImageAndData ⟨some "k"⟩ none [exRowA, exRowB, exRowC, exRowA]
        ["Category"] "p" =
      analyzeImageAndData ⟨some "k"⟩ none [exRowA, exRowB, exRowC, exRowB]
        ["Category"] "p" :=
  ⟨by decide,
   analyze_sample_bound_spec ⟨some "k"⟩ none [exRowA, exRowB, exRowC, exRowA]
     [exRowA, exRowB, exRowC, exRowB] ["Category"] "p" (by decide)⟩

end VizAI

